import Mathlib

/-!
Verification development for the `youtube-discovery` pipeline (`src/main.py`).

The five stage functions (`parse_intent`, `discover_videos`, `fetch_video_stats`,
`fetch_channels`, `evaluate`), the state record (`AgentState`) and the langgraph
graph are shallowly embedded below.  External collaborators (the language model,
the YouTube client and the clock) are threaded explicitly through an `Oracles`
record; every upstream request a stage issues is reported in its result so that
call-count properties can be stated.  `json.loads` is embedded as the executable
recursive-descent function `jsonLoads` (JSON numbers are modelled exactly as
decimal mantissa/exponent pairs; the non-standard `NaN`/`Infinity` extensions
of Python's decoder are not modelled).  Python's `datetime` arithmetic is
embedded from CPython's `Lib/datetime.py` ordinal algorithms.
-/

/-- JSON values as produced by `json.loads`.  Numbers are kept exactly as
`mantissa * 10 ^ exponent10`. -/
inductive Json where
  | null : Json
  | bool (b : Bool) : Json
  | num (mantissa : Int) (exponent10 : Int) : Json
  | str (s : String) : Json
  | arr (xs : List Json) : Json
  | obj (kvs : List (String × Json)) : Json

instance : Inhabited Json := ⟨Json.null⟩

/-- Whitespace accepted by the JSON grammar. -/
def isJsonWs (c : Char) : Bool :=
  c = ' ' || c = '\t' || c = '\n' || c = '\r'

/-- Skip leading JSON whitespace. -/
def skipWs : List Char → List Char
  | [] => []
  | c :: cs => if isJsonWs c then skipWs cs else c :: cs

/-- Value of a hexadecimal digit, if any. -/
def hexVal (c : Char) : Option Nat :=
  if '0' ≤ c ∧ c ≤ '9' then some (c.toNat - '0'.toNat)
  else if 'a' ≤ c ∧ c ≤ 'f' then some (c.toNat - 'a'.toNat + 10)
  else if 'A' ≤ c ∧ c ≤ 'F' then some (c.toNat - 'A'.toNat + 10)
  else none

/-- Parse the body of a JSON string literal (the opening quote already
consumed), returning the string and the remaining input. -/
def pStr (acc : List Char) : List Char → Option (String × List Char)
  | [] => none
  | '"' :: rest => some (String.mk acc.reverse, rest)
  | '\\' :: esc => match esc with
    | '"' :: rest => pStr ('"' :: acc) rest
    | '\\' :: rest => pStr ('\\' :: acc) rest
    | '/' :: rest => pStr ('/' :: acc) rest
    | 'b' :: rest => pStr ('\x08' :: acc) rest
    | 'f' :: rest => pStr ('\x0c' :: acc) rest
    | 'n' :: rest => pStr ('\n' :: acc) rest
    | 'r' :: rest => pStr ('\r' :: acc) rest
    | 't' :: rest => pStr ('\t' :: acc) rest
    | 'u' :: h1 :: h2 :: h3 :: h4 :: rest =>
      match hexVal h1, hexVal h2, hexVal h3, hexVal h4 with
      | some a, some b, some c, some d =>
        pStr (Char.ofNat (((a * 16 + b) * 16 + c) * 16 + d) :: acc) rest
      | _, _, _, _ => none
    | _ => none
  | c :: rest => pStr (c :: acc) rest

/-- Take a maximal run of decimal digits. -/
def takeDigits : List Char → List Char × List Char
  | [] => ([], [])
  | c :: cs =>
    if c.isDigit then
      let (ds, rest) := takeDigits cs
      (c :: ds, rest)
    else ([], c :: cs)

/-- Numeric value of a digit run. -/
def digitsVal (ds : List Char) : Nat :=
  ds.foldl (fun acc c => acc * 10 + (c.toNat - '0'.toNat)) 0

/-- Parse a JSON number (integer part, optional fraction, optional exponent),
returned exactly as a decimal mantissa and a power of ten. -/
def pNum (cs : List Char) : Option (Json × List Char) :=
  let (neg, cs1) := match cs with
    | '-' :: rest => (true, rest)
    | _ => (false, cs)
  let (intDs, cs2) := takeDigits cs1
  if intDs = [] then none
  else if 1 < intDs.length ∧ intDs.headI = '0' then none
  else
    let (fracDs, cs3) := match cs2 with
      | '.' :: rest => takeDigits rest
      | _ => ([], cs2)
    if cs2.headI = '.' ∧ fracDs = [] then none
    else
      let cs3' := if cs2.headI = '.' then cs3 else cs2
      let mantNat := digitsVal (intDs ++ fracDs)
      let mant : Int := if neg then -(mantNat : Int) else (mantNat : Int)
      match cs3' with
      | 'e' :: rest => pNumExp mant fracDs.length rest
      | 'E' :: rest => pNumExp mant fracDs.length rest
      | rest => some (Json.num mant (-(fracDs.length : Int)), rest)
where
  /-- Parse the exponent part after `e`/`E`. -/
  pNumExp (mant : Int) (fracLen : Nat) (cs : List Char) : Option (Json × List Char) :=
    let (eneg, cs1) := match cs with
      | '-' :: rest => (true, rest)
      | '+' :: rest => (false, rest)
      | _ => (false, cs)
    let (expDs, cs2) := takeDigits cs1
    if expDs = [] then none
    else
      let e : Int := if eneg then -(digitsVal expDs : Int) else (digitsVal expDs : Int)
      some (Json.num mant (e - (fracLen : Int)), cs2)

/-- Modes of the recursive-descent JSON reader: a single value, the items of
an array (after `[`), or the members of an object (after `{`), in each case
with at least one element remaining. -/
inductive PMode where
  | val : PMode
  | arrItems : PMode
  | objItems : PMode

/-- Fueled recursive-descent JSON reader. -/
def pJson : Nat → PMode → List Char → Option (Json × List Char)
  | 0, _, _ => none
  | fuel + 1, PMode.val, cs =>
    match skipWs cs with
    | 'n' :: 'u' :: 'l' :: 'l' :: rest => some (Json.null, rest)
    | 't' :: 'r' :: 'u' :: 'e' :: rest => some (Json.bool true, rest)
    | 'f' :: 'a' :: 'l' :: 's' :: 'e' :: rest => some (Json.bool false, rest)
    | '"' :: rest => (pStr [] rest).map (fun p => (Json.str p.1, p.2))
    | c :: rest =>
      if c = '[' then
        match skipWs rest with
        | ']' :: rest2 => some (Json.arr [], rest2)
        | rest2 => pJson fuel PMode.arrItems rest2
      else if c = '{' then
        match skipWs rest with
        | '}' :: rest2 => some (Json.obj [], rest2)
        | rest2 => pJson fuel PMode.objItems rest2
      else if c = '-' ∨ c.isDigit then pNum (c :: rest)
      else none
    | [] => none
  | fuel + 1, PMode.arrItems, cs =>
    match pJson fuel PMode.val cs with
    | none => none
    | some (v, rest) =>
      match skipWs rest with
      | ',' :: rest2 =>
        match pJson fuel PMode.arrItems rest2 with
        | some (Json.arr vs, rest3) => some (Json.arr (v :: vs), rest3)
        | _ => none
      | ']' :: rest2 => some (Json.arr [v], rest2)
      | _ => none
  | fuel + 1, PMode.objItems, cs =>
    match skipWs cs with
    | '"' :: rest =>
      match pStr [] rest with
      | none => none
      | some (k, rest1) =>
        match skipWs rest1 with
        | ':' :: rest2 =>
          match pJson fuel PMode.val rest2 with
          | none => none
          | some (v, rest3) =>
            match skipWs rest3 with
            | ',' :: rest4 =>
              match pJson fuel PMode.objItems rest4 with
              | some (Json.obj kvs, rest5) => some (Json.obj ((k, v) :: kvs), rest5)
              | _ => none
            | '}' :: rest4 => some (Json.obj [(k, v)], rest4)
            | _ => none
        | _ => none
    | _ => none

/-- Embedding of `json.loads`: parse one JSON value and require only trailing
whitespace after it.  `none` models a raised `json.JSONDecodeError`. -/
def jsonLoads (s : String) : Option Json :=
  match pJson (s.length + 1) PMode.val s.data with
  | some (v, rest) => if skipWs rest = [] then some v else none
  | none => none

/-- Errors a pipeline stage can raise: `jsonDecodeError` for
`json.JSONDecodeError`, `keyError k` for a Python `KeyError` / missing field
`k`, `typeError` for subscripting a non-dict value, and `recursionLimit` for
langgraph's `GraphRecursionError`. -/
inductive Err where
  | jsonDecodeError : Err
  | keyError (k : String) : Err
  | typeError : Err
  | recursionLimit : Err
  | graphError (node : String) : Err
deriving DecidableEq

/-- Embedding of Python subscripting `j[k]` on a parsed JSON value: a
`KeyError` when the key is absent from a dict, a `TypeError` when `j` is not
a dict at all. -/
def Json.getKey : Json → String → Except Err Json
  | Json.obj kvs, k =>
    match kvs.find? (fun kv => kv.1 = k) with
    | some kv => Except.ok kv.2
    | none => Except.error (Err.keyError k)
  | _, _ => Except.error Err.typeError

/-- Embedding of the Python comparison `j == s` between a parsed JSON value
and a string literal: true exactly for an equal string value. -/
def pyEqStr (j : Json) (s : String) : Bool :=
  match j with
  | Json.str t => t = s
  | _ => false

/-- Rendering of a JSON value back to text, used only to interpolate values
into prompt strings (the pipeline never parses this output). -/
def Json.render : Json → String
  | Json.null => "None"
  | Json.bool true => "True"
  | Json.bool false => "False"
  | Json.num m e => toString m ++ (if e = 0 then "" else "e" ++ toString e)
  | Json.str s => s
  | Json.arr xs =>
    "[" ++ String.intercalate ", " (xs.attach.map (fun x => Json.render x.1)) ++ "]"
  | Json.obj kvs =>
    "\x7b" ++
      String.intercalate ", "
        (kvs.attach.map (fun kv => kv.1.1 ++ ": " ++ Json.render kv.1.2)) ++ "\x7d"
decreasing_by
  · have := List.sizeOf_lt_of_mem x.2
    simp only [Json.arr.sizeOf_spec]
    omega
  · have := List.sizeOf_lt_of_mem kv.2
    have h2 : sizeOf kv.1.2 < sizeOf kv.1 := by
      rcases kv.1 with ⟨a, b⟩
      simp
    simp only [Json.obj.sizeOf_spec]
    omega

/-! ## Python `datetime`, embedded from CPython `Lib/datetime.py` -/

/-- Days in each month of a non-leap year (`_DAYS_IN_MONTH`, 1-indexed). -/
def daysInMonth : Nat → Nat
  | 1 => 31 | 2 => 28 | 3 => 31 | 4 => 30 | 5 => 31 | 6 => 30
  | 7 => 31 | 8 => 31 | 9 => 30 | 10 => 31 | 11 => 30 | 12 => 31
  | _ => 0

/-- Days before each month of a non-leap year (`_DAYS_BEFORE_MONTH`). -/
def daysBeforeMonth : Nat → Nat
  | 1 => 0 | 2 => 31 | 3 => 59 | 4 => 90 | 5 => 120 | 6 => 151
  | 7 => 181 | 8 => 212 | 9 => 243 | 10 => 273 | 11 => 304 | 12 => 334
  | _ => 0

/-- `_is_leap` from `datetime.py`. -/
def isLeap (y : Nat) : Bool :=
  y % 4 = 0 && (y % 100 ≠ 0 || y % 400 = 0)

/-- `_days_before_year`: days before January 1st of year `y`. -/
def daysBeforeYear (y : Nat) : Nat :=
  (y - 1) * 365 + (y - 1) / 4 - (y - 1) / 100 + (y - 1) / 400

/-- `_ymd2ord`: proleptic Gregorian ordinal of the date, with day 1 being
January 1st of year 1. -/
def ymd2ord (y m d : Nat) : Nat :=
  daysBeforeYear y + daysBeforeMonth m + (if 2 < m ∧ isLeap y then 1 else 0) + d

/-- Month and day-of-month from a 0-based day-of-year `n < 365 + leap`,
excluding December 31st of a leap year (handled separately upstream); the
month-estimate-and-correct computation of `_ord2ymd`. -/
def ord2md (n : Nat) (leap : Bool) : Nat × Nat :=
  let month := (n + 50) >>> 5
  let preceding := daysBeforeMonth month + (if 2 < month ∧ leap then 1 else 0)
  if n < preceding then
    let month' := month - 1
    let preceding' := preceding - (daysInMonth month' + (if month' = 2 ∧ leap then 1 else 0))
    (month', n - preceding' + 1)
  else
    (month, n - preceding + 1)

/-- `_ord2ymd`: year, month and day of proleptic Gregorian ordinal `nOrd`. -/
def ord2ymd (nOrd : Nat) : Nat × Nat × Nat :=
  let n0 := nOrd - 1
  let n400 := n0 / 146097
  let r1 := n0 % 146097
  let n100 := r1 / 36524
  let r2 := r1 % 36524
  let n4 := r2 / 1461
  let r3 := r2 % 1461
  let n1 := r3 / 365
  let n := r3 % 365
  let year := n400 * 400 + n100 * 100 + n4 * 4 + n1 + 1
  if n1 = 4 ∨ n100 = 4 then (year - 1, 12, 31)
  else
    let leap := n1 = 3 && (n4 ≠ 24 || n100 = 3)
    let md := ord2md n leap
    (year, md.1, md.2)

/-- A Python `datetime.datetime` value (naive UTC, as `datetime.utcnow()`
returns). -/
structure Datetime where
  year : Nat
  month : Nat
  day : Nat
  hour : Nat
  minute : Nat
  second : Nat
  microsecond : Nat

/-- Ordinal of a datetime's date (`datetime.toordinal`). -/
def Datetime.toordinal (t : Datetime) : Nat :=
  ymd2ord t.year t.month t.day

/-- `t - timedelta(days=k)` for a pure-days delta: Python converts the date
to its ordinal, subtracts, and converts back, leaving the time of day
untouched. -/
def pySubDays (t : Datetime) (k : Nat) : Datetime :=
  let ymd := ord2ymd (t.toordinal - k)
  ⟨ymd.1, ymd.2.1, ymd.2.2, t.hour, t.minute, t.second, t.microsecond⟩

/-- Seconds elapsed since 00:00:00 of the (fictitious) ordinal day 0;
a datetime rendered at second precision. -/
def Datetime.toSeconds (t : Datetime) : Nat :=
  86400 * t.toordinal + 3600 * t.hour + 60 * t.minute + t.second

/-- Decimal rendering of `n` left-padded with zeros to width `w`. -/
def padNum (w n : Nat) : String :=
  let s := toString n
  String.mk (List.replicate (w - s.length) '0') ++ s

/-- `datetime.isoformat("T")`: `YYYY-MM-DDTHH:MM:SS`, with a `.ffffff`
microseconds suffix exactly when the microsecond field is nonzero. -/
def Datetime.isoformatT (t : Datetime) : String :=
  padNum 4 t.year ++ "-" ++ padNum 2 t.month ++ "-" ++ padNum 2 t.day ++ "T" ++
  padNum 2 t.hour ++ ":" ++ padNum 2 t.minute ++ ":" ++ padNum 2 t.second ++
  (if t.microsecond ≠ 0 then "." ++ padNum 6 t.microsecond else "")

/-! ## Data model of the pipeline (`src/main.py`) -/

/-- The `id` object of a YouTube search result; `videoId` is `none` when the
field is absent (subscripting then raises `KeyError`). -/
structure SearchId where
  videoId : Option String

/-- One item of a `youtube.search().list(...)` response. -/
structure SearchItem where
  id : SearchId

/-- A `youtube.search().list(...)` response; the code reads only `items`. -/
structure SearchResponse where
  items : List SearchItem

/-- The `snippet` of a video record; `channelId` is `none` when absent. -/
structure VideoSnippet where
  channelId : Option String

/-- One item of a `youtube.videos().list(...)` response.  Only the fields the
pipeline actually subscripts are modelled. -/
structure Video where
  snippet : VideoSnippet

/-- A `youtube.videos().list(...)` response. -/
structure VideosResponse where
  items : List Video

/-- A `youtube.channels().list(...)` response.  Channel records are never
subscripted by the pipeline (they are only interpolated into the evaluator
prompt), so they stay generic JSON values. -/
structure ChannelsResponse where
  items : List Json

/-- The keyword arguments `discover_videos` passes to
`youtube.search().list`. -/
structure SearchArgs where
  part : String
  q : Json
  type : String
  videoDuration : String
  regionCode : String
  publishedAfter : String
  maxResults : Nat

/-- A role-tagged chat message (`SystemMessage` / `HumanMessage`). -/
inductive ChatMessage where
  | system (content : String) : ChatMessage
  | human (content : String) : ChatMessage

/-- One upstream request issued by a stage. -/
inductive Call where
  | llm (messages : List ChatMessage) : Call
  | search (args : SearchArgs) : Call
  | videosList (part : String) (id : String) : Call
  | channelsList (part : String) (id : String) : Call

/-- The external collaborators, injected explicitly: the language model, the
three YouTube read operations (each keyed by the request the code sends), and
the clock read by `datetime.utcnow()`. -/
structure Oracles where
  llm : List ChatMessage → String
  search : SearchArgs → SearchResponse
  videosList : String → VideosResponse
  channelsList : String → ChannelsResponse
  now : Datetime

/-- The pipeline state record (`AgentState` in `src/main.py`).  Fields not
yet written by a stage hold their (never read before being written) default
values. -/
structure AgentState where
  query : String
  intent : Json := Json.null
  video_ids : List String := []
  videos : List Video := []
  channels : List Json := []
  final_results : Json := Json.null

/-! ## The five stage functions -/

/-- The messages `parse_intent` sends to the language model (the prompt
f-string with the query interpolated). -/
def intentMessages (q : String) : List ChatMessage :=
  [ChatMessage.system "You are a strict JSON generator. No markdown.",
   ChatMessage.human ("\nExtract structured intent from this query:\n\n\"" ++ q ++
    "\"\n\nReturn JSON only with:\n- niche\n- country\n- format (shorts/long)\n- max_subscribers\n- metric_priority\n")]

/-- Stage 1, `parse_intent`: ask the model, `json.loads` the response into
`intent`.  No field validation happens after the parse. -/
def parse_intent (o : Oracles) (s : AgentState) : Except Err (AgentState × List Call) :=
  let msgs := intentMessages s.query
  match jsonLoads (o.llm msgs) with
  | some j => Except.ok ({ s with intent := j }, [Call.llm msgs])
  | none => Except.error Err.jsonDecodeError

/-- The keyword arguments `discover_videos` builds for the search call, in the
source's evaluation order: the time window first, then the `intent`
subscripts. -/
def searchArgsOf (o : Oracles) (s : AgentState) : Except Err SearchArgs :=
  let published_after := (pySubDays o.now 30).isoformatT ++ "Z"
  match s.intent.getKey "niche" with
  | Except.error e => Except.error e
  | Except.ok niche =>
    match s.intent.getKey "format" with
    | Except.error e => Except.error e
    | Except.ok fmt =>
      Except.ok ⟨"snippet", niche, "video",
        (if pyEqStr fmt "shorts" then "short" else "any"),
        "IN", published_after, 15⟩

/-- `item["id"]["videoId"]`. -/
def getVideoId (item : SearchItem) : Except Err String :=
  match item.id.videoId with
  | some v => Except.ok v
  | none => Except.error (Err.keyError "videoId")

/-- Run a field extraction over a list, stopping at the first failure (the
comprehension loop of `list({... for x in xs})`). -/
def extractAll {α : Type} (f : α → Except Err String) : List α → Except Err (List String)
  | [] => Except.ok []
  | a :: as =>
    match f a with
    | Except.error e => Except.error e
    | Except.ok b =>
      match extractAll f as with
      | Except.error e => Except.error e
      | Except.ok bs => Except.ok (b :: bs)

/-- `list({item["id"]["videoId"] for item in results["items"]})`: extract
every video id, deduplicated with set semantics (iteration order of the
Python set is not significant and not relied upon). -/
def videoIdsOf (items : List SearchItem) : Except Err (List String) :=
  match extractAll getVideoId items with
  | Except.error e => Except.error e
  | Except.ok raw => Except.ok raw.dedup

/-- Stage 2, `discover_videos`: one search request, then collect the returned
video ids into `video_ids`. -/
def discover_videos (o : Oracles) (s : AgentState) : Except Err (AgentState × List Call) :=
  match searchArgsOf o s with
  | Except.error e => Except.error e
  | Except.ok args =>
    match videoIdsOf (o.search args).items with
    | Except.error e => Except.error e
    | Except.ok video_ids =>
      Except.ok ({ s with video_ids := video_ids }, [Call.search args])

/-- Stage 3, `fetch_video_stats`: one batch video lookup over the joined ids
(issued unconditionally, also when `video_ids` is empty). -/
def fetch_video_stats (o : Oracles) (s : AgentState) : Except Err (AgentState × List Call) :=
  let idArg := String.intercalate "," s.video_ids
  let response := o.videosList idArg
  Except.ok ({ s with videos := response.items },
    [Call.videosList "snippet,statistics,contentDetails" idArg])

/-- `v["snippet"]["channelId"]`. -/
def getChannelId (v : Video) : Except Err String :=
  match v.snippet.channelId with
  | some c => Except.ok c
  | none => Except.error (Err.keyError "channelId")

/-- `list({v["snippet"]["channelId"] for v in state["videos"]})`. -/
def channelIdsOf (videos : List Video) : Except Err (List String) :=
  match extractAll getChannelId videos with
  | Except.error e => Except.error e
  | Except.ok raw => Except.ok raw.dedup

/-- Stage 4, `fetch_channels`: derive the deduplicated channel ids, then one
batch channel lookup over the joined ids (issued unconditionally). -/
def fetch_channels (o : Oracles) (s : AgentState) : Except Err (AgentState × List Call) :=
  match channelIdsOf s.videos with
  | Except.error e => Except.error e
  | Except.ok channel_ids =>
    let idArg := String.intercalate "," channel_ids
    Except.ok ({ s with channels := (o.channelsList idArg).items },
      [Call.channelsList "snippet,statistics" idArg])

/-- The messages `evaluate` sends to the language model (channels and the
subscriber ceiling interpolated into the prompt f-string). -/
def evalMessages (channels : List Json) (maxSubs : Json) : List ChatMessage :=
  [ChatMessage.system "Return only valid JSON.",
   ChatMessage.human ("\nAnalyze creators.\n\nCHANNELS:\n" ++ (Json.arr channels).render ++
    "\n\nRules:\n- subscribers < " ++ maxSubs.render ++
    "\n- strong engagement\n\nReturn JSON list with:\n- channel_name\n- subscribers\n- avg_views\n- reasoning\n")]

/-- Stage 5, `evaluate`: subscript `intent["max_subscribers"]` while building
the prompt, ask the model, `json.loads` the response into `final_results`.
No shape validation happens after the parse. -/
def evaluate (o : Oracles) (s : AgentState) : Except Err (AgentState × List Call) :=
  match s.intent.getKey "max_subscribers" with
  | Except.error e => Except.error e
  | Except.ok maxSubs =>
    let msgs := evalMessages s.channels maxSubs
    match jsonLoads (o.llm msgs) with
    | some j => Except.ok ({ s with final_results := j }, [Call.llm msgs])
    | none => Except.error Err.jsonDecodeError

/-! ## The langgraph graph and its sequential reading -/

/-- The type of a registered node function. -/
abbrev NodeFn : Type := Oracles → AgentState → Except Err (AgentState × List Call)

/-- A `StateGraph`: named nodes, directed edges, and an entry point.  The
sentinel node name `"END"` plays the role of langgraph's `END`. -/
structure StateGraphDef where
  nodes : List (String × NodeFn)
  edges : List (String × String)
  entry : String

/-- The graph built at module level in `src/main.py`. -/
def ytGraph : StateGraphDef :=
  { nodes := [("intent", parse_intent), ("discover", discover_videos),
              ("videos", fetch_video_stats), ("channels", fetch_channels),
              ("evaluate", evaluate)],
    edges := [("intent", "discover"), ("discover", "videos"),
              ("videos", "channels"), ("channels", "evaluate"),
              ("evaluate", "END")],
    entry := "intent" }

/-- Execute a compiled graph: starting from a node name, run the node's
function, follow the unique outgoing edge, and stop at `"END"`; the fuel
models langgraph's recursion limit (`GraphRecursionError` when exhausted).
Upstream calls issued along the way are accumulated in order. -/
def runGraph (g : StateGraphDef) (o : Oracles) :
    Nat → String → AgentState → List Call → Except Err (AgentState × List Call)
  | 0, _, _, _ => Except.error Err.recursionLimit
  | fuel + 1, node, s, acc =>
    if node = "END" then Except.ok (s, acc)
    else
      match g.nodes.find? (fun p => p.1 == node) with
      | none => Except.error (Err.graphError node)
      | some p =>
        match p.2 o s with
        | Except.error e => Except.error e
        | Except.ok (s', cs) =>
          match g.edges.find? (fun q => q.1 == node) with
          | none => Except.error (Err.graphError node)
          | some q => runGraph g o fuel q.2 s' (acc ++ cs)

/-- `agent.invoke`: run the compiled graph from its entry point (25 is
langgraph's default recursion limit). -/
def agentInvoke (o : Oracles) (s : AgentState) : Except Err (AgentState × List Call) :=
  runGraph ytGraph o 25 ytGraph.entry s []

/-- The plain sequential composition of the five stage functions, in the
fixed order 1→2→3→4→5, each run once. -/
def seqPipeline (o : Oracles) (s : AgentState) : Except Err (AgentState × List Call) :=
  match parse_intent o s with
  | Except.error e => Except.error e
  | Except.ok r1 =>
    match discover_videos o r1.1 with
    | Except.error e => Except.error e
    | Except.ok r2 =>
      match fetch_video_stats o r2.1 with
      | Except.error e => Except.error e
      | Except.ok r3 =>
        match fetch_channels o r3.1 with
        | Except.error e => Except.error e
        | Except.ok r4 =>
          match evaluate o r4.1 with
          | Except.error e => Except.error e
          | Except.ok r5 =>
            Except.ok (r5.1, r1.2 ++ r2.2 ++ r3.2 ++ r4.2 ++ r5.2)

/-! ## Concrete fixtures for witnesses and counterexamples -/

/-- Whether a stage result is a success. -/
def isOkE {α : Type} : Except Err α → Bool
  | Except.ok _ => true
  | Except.error _ => false

/-- A well-formed intent JSON response used by the mocks. -/
def mockIntentJson : String :=
  "\x7b\"niche\": \"fashion\", \"country\": \"IN\", \"format\": \"shorts\", \"max_subscribers\": 500000, \"metric_priority\": \"growth\"\x7d"

/-- The parse of `mockIntentJson`. -/
def mockIntentParsed : Json :=
  Json.obj [("niche", Json.str "fashion"), ("country", Json.str "IN"),
    ("format", Json.str "shorts"), ("max_subscribers", Json.num 500000 0),
    ("metric_priority", Json.str "growth")]

/-- A well-formed evaluator JSON response used by the mocks. -/
def mockFinalJson : String :=
  "[\x7b\"channel_name\": \"a\", \"subscribers\": 450000, \"avg_views\": 90000, \"reasoning\": \"ok\"\x7d]"

/-- A concrete mock of the external collaborators: the model answers the
extractor prompt (recognised by its system message) with `mockIntentJson` and
every other prompt with `mockFinalJson`; the platform returns one duplicated
and one fresh video id, two videos of the same channel, and one channel. -/
def mockOracles : Oracles :=
  { llm := fun msgs => match msgs with
      | ChatMessage.system sys :: _ =>
        if sys = "You are a strict JSON generator. No markdown." then mockIntentJson
        else mockFinalJson
      | _ => mockFinalJson,
    search := fun _ => ⟨[⟨⟨some "v1"⟩⟩, ⟨⟨some "v1"⟩⟩, ⟨⟨some "v2"⟩⟩]⟩,
    videosList := fun _ => ⟨[⟨⟨some "c1"⟩⟩, ⟨⟨some "c1"⟩⟩]⟩,
    channelsList := fun _ => ⟨[Json.obj [("title", Json.str "chan")]]⟩,
    now := ⟨2026, 10, 12, 7, 30, 5, 0⟩ }

/-- `mockOracles` with the model always answering the empty JSON object. -/
def emptyObjOracles : Oracles :=
  { mockOracles with llm := fun _ => "\x7b\x7d" }

/-- `mockOracles` with the model always answering garbage. -/
def badJsonOracles : Oracles :=
  { mockOracles with llm := fun _ => "not json" }

/-- The result of one full mock pipeline run (extracted from the run so that
its success is checkable by `rfl`). -/
def c8run : AgentState × List Call :=
  (agentInvoke mockOracles { query := "q" }).toOption.getD ({ query := "" }, [])

/-- The result of the mock extractor stage. -/
def c7run : AgentState × List Call :=
  ({ query := "q", intent := mockIntentParsed }, [Call.llm (intentMessages "q")])

/-- A state as it stands after the mock extractor stage. -/
def mockIntentState : AgentState :=
  { query := "q", intent := mockIntentParsed }

/-- The search arguments the discovery stage builds from `mockIntentState`
under `mockOracles`. -/
def mockSearchArgs : SearchArgs :=
  ⟨"snippet", Json.str "fashion", "video", "short", "IN",
    (pySubDays mockOracles.now 30).isoformatT ++ "Z", 15⟩

/-- A search result list with a repeated video id. -/
def c5items : List SearchItem :=
  [⟨⟨some "v1"⟩⟩, ⟨⟨some "v1"⟩⟩, ⟨⟨some "v2"⟩⟩]

/-! ## Calendar lemmas: the ordinal conversions are mutually inverse -/

/-- `isLeap` unfolded to a proposition. -/
theorem isLeap_iff (y : Nat) :
    isLeap y = true ↔ (y % 4 = 0 ∧ (y % 100 ≠ 0 ∨ y % 400 = 0)) := by
  simp [isLeap, Bool.and_eq_true, Bool.or_eq_true, decide_eq_true_eq]

set_option maxRecDepth 4000 in
/-- Correctness of the month/day extraction of `_ord2ymd` for every 0-based
day-of-year below 365 and either leap flag. -/
theorem ord2md_correct (lp : Bool) : ∀ n, n < 365 →
    daysBeforeMonth (ord2md n lp).1 +
      (if 2 < (ord2md n lp).1 ∧ lp = true then 1 else 0) + (ord2md n lp).2 = n + 1 := by
  cases lp <;> decide

/-- The special `n1 == 4 or n100 == 4` branch of `_ord2ymd` (December 31st of
a leap year) maps back to the ordinal it came from. -/
theorem ymd2ord_dec31 (n400 n100 n4 n1 : Nat)
    (hc : (n1 = 4 ∧ n4 ≤ 23 ∧ n100 ≤ 3) ∨ (n100 = 4 ∧ n4 = 0 ∧ n1 = 0)) :
    ymd2ord (n400 * 400 + n100 * 100 + n4 * 4 + n1 + 1 - 1) 12 31
      = 146097 * n400 + 36524 * n100 + 1461 * n4 + 365 * n1 + 1 := by
  have hleap : isLeap (n400 * 400 + n100 * 100 + n4 * 4 + n1 + 1 - 1) = true := by
    rw [isLeap_iff]; omega
  unfold ymd2ord
  rw [hleap]
  have hdbm : daysBeforeMonth 12 = 334 := rfl
  rw [hdbm]
  have hif : (if 2 < 12 ∧ true = true then 1 else 0) = 1 := by norm_num
  rw [hif]
  unfold daysBeforeYear
  omega

/-- The generic branch of `_ord2ymd` maps back to the ordinal it came from. -/
theorem ymd2ord_parts (n400 n100 n4 n1 n : Nat)
    (b100 : n100 ≤ 3) (b4 : n4 ≤ 24) (b1 : n1 ≤ 3) (bn : n < 365) :
    ymd2ord (n400 * 400 + n100 * 100 + n4 * 4 + n1 + 1)
        (ord2md n (n1 = 3 && (n4 ≠ 24 || n100 = 3))).1
        (ord2md n (n1 = 3 && (n4 ≠ 24 || n100 = 3))).2
      = 146097 * n400 + 36524 * n100 + 1461 * n4 + 365 * n1 + n + 1 := by
  set lp : Bool := (n1 = 3 && (n4 ≠ 24 || n100 = 3)) with hlp
  have hA := ord2md_correct lp n bn
  have hleap : isLeap (n400 * 400 + n100 * 100 + n4 * 4 + n1 + 1) = lp := by
    rw [Bool.eq_iff_iff, isLeap_iff, hlp]
    simp only [Bool.and_eq_true, Bool.or_eq_true, decide_eq_true_eq, ne_eq]
    omega
  unfold ymd2ord
  rw [hleap]
  unfold daysBeforeYear
  omega

/-- The ordinal roundtrip: `_ymd2ord` is a left inverse of `_ord2ymd` on
positive ordinals. -/
theorem ymd2ord_ord2ymd (N : Nat) (h : 1 ≤ N) :
    ymd2ord (ord2ymd N).1 (ord2ymd N).2.1 (ord2ymd N).2.2 = N := by
  unfold ord2ymd
  dsimp only
  split
  case isTrue hsp =>
    rw [ymd2ord_dec31 ((N - 1) / 146097) ((N - 1) % 146097 / 36524)
      ((N - 1) % 146097 % 36524 / 1461) ((N - 1) % 146097 % 36524 % 1461 / 365) (by omega)]
    omega
  case isFalse hsp =>
    rw [ymd2ord_parts ((N - 1) / 146097) ((N - 1) % 146097 / 36524)
      ((N - 1) % 146097 % 36524 / 1461) ((N - 1) % 146097 % 36524 % 1461 / 365)
      ((N - 1) % 146097 % 36524 % 1461 % 365)
      (by omega) (by omega) (by omega) (by omega)]
    omega

/-- Subtracting a pure-days timedelta moves the datetime back by exactly
`86400 * k` seconds, at second precision, whenever the resulting ordinal is
still positive. -/
theorem toSeconds_pySubDays (t : Datetime) (k : Nat) (h : k + 1 ≤ t.toordinal) :
    (pySubDays t k).toSeconds + k * 86400 = t.toSeconds := by
  unfold pySubDays Datetime.toSeconds
  have hrt := ymd2ord_ord2ymd (t.toordinal - k) (by omega)
  unfold Datetime.toordinal at *
  dsimp only
  omega

/-! ## Shared dissection lemmas -/

/-- Successful runs of `searchArgsOf` come from successful intent lookups,
and the arguments are exactly the tuple built in the source. -/
theorem searchArgsOf_ok (o : Oracles) (s : AgentState) (args : SearchArgs)
    (h : searchArgsOf o s = Except.ok args) :
    ∃ niche fmt, s.intent.getKey "niche" = Except.ok niche ∧
      s.intent.getKey "format" = Except.ok fmt ∧
      args = ⟨"snippet", niche, "video",
        (if pyEqStr fmt "shorts" then "short" else "any"),
        "IN", (pySubDays o.now 30).isoformatT ++ "Z", 15⟩ := by
  unfold searchArgsOf at h
  split at h
  · exact Except.noConfusion h
  next niche hn =>
    split at h
    · exact Except.noConfusion h
    next fmt hf =>
      cases h
      exact ⟨niche, fmt, hn, hf, rfl⟩

/-- `extractAll` succeeds when the extraction succeeds on every element. -/
theorem extractAll_ok {α : Type} (f : α → Except Err String) (l : List α)
    (h : ∀ a ∈ l, isOkE (f a) = true) : isOkE (extractAll f l) = true := by
  induction l with
  | nil => rfl
  | cons a as ih =>
    unfold extractAll
    cases hfa : f a with
    | error e =>
      have hc := h a (List.mem_cons_self a as)
      rw [hfa] at hc
      simp [isOkE] at hc
    | ok b =>
      have hih := ih (fun x hx => h x (List.mem_cons_of_mem a hx))
      cases hrest : extractAll f as with
      | error e => rw [hrest] at hih; simp [isOkE] at hih
      | ok bs => rfl

/-! ## The claims -/

/-- C1 (counterexample): the claim states that for an empty `video_ids`,
`fetch_video_stats` produces `videos = []` and issues zero upstream calls.
The zero-call part is false on the code: the stage issues its batch
`videos().list` call unconditionally, so on a state with `video_ids = []` it
still performs exactly one upstream call (with the empty joined id string). -/
theorem c1_counterexample :
    ¬ (∀ (o : Oracles) (s : AgentState), s.video_ids = [] →
        ∀ r, fetch_video_stats o s = Except.ok r → r.2 = []) := by
  intro hclaim
  have h := hclaim mockOracles { query := "q" } rfl
    ({ query := "q", videos := (mockOracles.videosList "").items },
      [Call.videosList "snippet,statistics,contentDetails" ""]) rfl
  exact List.noConfusion h

/-- C1 (amended): for an empty `video_ids`, `fetch_video_stats` issues
exactly one upstream `videos().list` call whose id argument is the empty
string, and stores as `videos` whatever items that call returns (so
`videos = []` exactly when the upstream response is empty, not
unconditionally). -/
theorem c1_one_call_on_empty (o : Oracles) (s : AgentState)
    (h : s.video_ids = []) :
    fetch_video_stats o s =
      Except.ok ({ s with videos := (o.videosList "").items },
        [Call.videosList "snippet,statistics,contentDetails" ""]) := by
  unfold fetch_video_stats
  rw [h]
  rfl

/-- C1 (witness): the amended claim at a concrete state with empty
`video_ids`. -/
theorem c1_witness :
    fetch_video_stats mockOracles { query := "q" } =
      Except.ok ({ query := "q", videos := (mockOracles.videosList "").items },
        [Call.videosList "snippet,statistics,contentDetails" ""]) :=
  c1_one_call_on_empty mockOracles { query := "q" } rfl

/-- C4 (counterexample): the claim states that for an empty `videos`,
`fetch_channels` produces `channels = []` and issues zero upstream calls.
The zero-call part is false on the code: the stage issues its batch
`channels().list` call unconditionally. -/
theorem c4_counterexample :
    ¬ (∀ (o : Oracles) (s : AgentState), s.videos = [] →
        ∀ r, fetch_channels o s = Except.ok r → r.2 = []) := by
  intro hclaim
  have h := hclaim mockOracles { query := "q" } rfl
    ({ query := "q", channels := (mockOracles.channelsList "").items },
      [Call.channelsList "snippet,statistics" ""]) rfl
  exact List.noConfusion h

/-- C4 (amended): for an empty `videos`, the derived channel-id set is empty
and `fetch_channels` still issues exactly one upstream `channels().list`
call whose id argument is the empty string, storing whatever items that call
returns. -/
theorem c4_one_call_on_empty (o : Oracles) (s : AgentState)
    (h : s.videos = []) :
    fetch_channels o s =
      Except.ok ({ s with channels := (o.channelsList "").items },
        [Call.channelsList "snippet,statistics" ""]) := by
  unfold fetch_channels
  rw [h]
  rfl

/-- C4 (witness): the amended claim at a concrete state with empty
`videos`. -/
theorem c4_witness :
    fetch_channels mockOracles { query := "q" } =
      Except.ok ({ query := "q", channels := (mockOracles.channelsList "").items },
        [Call.channelsList "snippet,statistics" ""]) :=
  c4_one_call_on_empty mockOracles { query := "q" } rfl

/-- C2: the duration filter passed to the search call is determined by the
extracted format: exactly when `intent["format"]` equals the short-form
token of the format enum (spelled `"shorts"` in the code's prompt and
comparison), `discover_videos` requests the platform's short-duration filter
(`videoDuration = "short"`); for every other format value it requests the
any-duration filter (`videoDuration = "any"`). -/
theorem c2_duration_filter (o : Oracles) (s : AgentState) (args : SearchArgs)
    (fmt : Json) (hargs : searchArgsOf o s = Except.ok args)
    (hfmt : s.intent.getKey "format" = Except.ok fmt) :
    args.videoDuration = (if pyEqStr fmt "shorts" then "short" else "any") ∧
      (args.videoDuration = "short" ↔ pyEqStr fmt "shorts" = true) := by
  obtain ⟨niche, fmt', hn, hf, rfl⟩ := searchArgsOf_ok o s args hargs
  rw [hfmt] at hf
  cases hf
  refine ⟨rfl, ?_⟩
  by_cases hb : pyEqStr fmt "shorts" = true
  · simp [hb]
  · simp [hb]

/-- C2 (witness): the duration filter at a concrete short-form intent. -/
theorem c2_witness :
    mockSearchArgs.videoDuration =
        (if pyEqStr (Json.str "shorts") "shorts" then "short" else "any") ∧
      (mockSearchArgs.videoDuration = "short" ↔
        pyEqStr (Json.str "shorts") "shorts" = true) :=
  c2_duration_filter mockOracles mockIntentState mockSearchArgs
    (Json.str "shorts") rfl rfl

/-- C3 (counterexample): the claim states the extractor fails whenever the
model response is missing a required field.  False on the code: the response
`"\x7b\x7d"` is valid JSON with every required field (here `niche`) missing,
yet `parse_intent` succeeds and stores the empty object as the intent. -/
theorem c3_counterexample :
    ¬ (∀ (o : Oracles) (s : AgentState) (j : Json),
        jsonLoads (o.llm (intentMessages s.query)) = some j →
        j.getKey "niche" = Except.error (Err.keyError "niche") →
        ∃ e, parse_intent o s = Except.error e) := by
  intro hclaim
  obtain ⟨e, he⟩ := hclaim emptyObjOracles { query := "q" } (Json.obj []) rfl rfl
  have hok : parse_intent emptyObjOracles { query := "q" } =
      Except.ok ({ query := "q", intent := Json.obj [] },
        [Call.llm (intentMessages "q")]) := rfl
  rw [hok] at he
  exact Except.noConfusion he

/-- C3 (amended): both language-model stages fail with the JSON-decode error
exactly when the model response is not valid JSON; required fields are not
validated at all — a valid-JSON response with missing fields is stored
as-is, neither rejected nor defaulted.  (The evaluator can additionally fail
earlier, with a key error, when `intent` lacks `max_subscribers`, which it
subscripts while building the prompt.) -/
theorem c3_json_only_validation :
    (∀ (o : Oracles) (s : AgentState),
        parse_intent o s = Except.error Err.jsonDecodeError ↔
          jsonLoads (o.llm (intentMessages s.query)) = none) ∧
    (∀ (o : Oracles) (s : AgentState) (j : Json),
        jsonLoads (o.llm (intentMessages s.query)) = some j →
          parse_intent o s =
            Except.ok ({ s with intent := j }, [Call.llm (intentMessages s.query)])) ∧
    (∀ (o : Oracles) (s : AgentState) (maxSubs : Json),
        s.intent.getKey "max_subscribers" = Except.ok maxSubs →
          (evaluate o s = Except.error Err.jsonDecodeError ↔
            jsonLoads (o.llm (evalMessages s.channels maxSubs)) = none)) ∧
    (∀ (o : Oracles) (s : AgentState) (maxSubs j : Json),
        s.intent.getKey "max_subscribers" = Except.ok maxSubs →
          jsonLoads (o.llm (evalMessages s.channels maxSubs)) = some j →
            evaluate o s = Except.ok ({ s with final_results := j },
              [Call.llm (evalMessages s.channels maxSubs)])) := by
  refine ⟨?_, ?_, ?_, ?_⟩
  · intro o s
    unfold parse_intent
    cases hj : jsonLoads (o.llm (intentMessages s.query)) with
    | some j => simp [hj]
    | none => simp [hj]
  · intro o s j h
    unfold parse_intent
    dsimp only
    rw [h]
  · intro o s maxSubs h
    unfold evaluate
    rw [h]
    cases hj : jsonLoads (o.llm (evalMessages s.channels maxSubs)) with
    | some j => simp [hj]
    | none => simp [hj]
  · intro o s maxSubs j h hj
    unfold evaluate
    rw [h]
    dsimp only
    rw [hj]

/-- C3 (witness): the evaluator part of the amended claim at a concrete
state: a non-JSON model response makes `evaluate` fail with the decode
error. -/
theorem c3_witness :
    evaluate badJsonOracles mockIntentState = Except.error Err.jsonDecodeError :=
  (c3_json_only_validation.2.2.1 badJsonOracles mockIntentState
    (Json.num 500000 0) rfl).mpr rfl

/-- C5: the extracted id collections are genuinely deduplicated: for any raw
extraction result (possibly containing repeated ids), the `video_ids` list
built by `discover_videos` and the channel-id list derived inside
`fetch_channels` have no duplicates, and their size equals the number of
distinct ids in the raw input; moreover any `video_ids` a successful
discovery stage stores has no duplicates. -/
theorem c5_dedup :
    (∀ (items : List SearchItem) (raw : List String),
        extractAll getVideoId items = Except.ok raw →
          videoIdsOf items = Except.ok raw.dedup ∧ raw.dedup.Nodup ∧
          raw.dedup.length = raw.toFinset.card) ∧
    (∀ (videos : List Video) (raw : List String),
        extractAll getChannelId videos = Except.ok raw →
          channelIdsOf videos = Except.ok raw.dedup ∧ raw.dedup.Nodup ∧
          raw.dedup.length = raw.toFinset.card) ∧
    (∀ (o : Oracles) (s : AgentState) (r : AgentState × List Call),
        discover_videos o s = Except.ok r → r.1.video_ids.Nodup) := by
  have key : ∀ raw : List String, raw.dedup.Nodup ∧ raw.dedup.length = raw.toFinset.card := by
    intro raw
    refine ⟨List.nodup_dedup raw, ?_⟩
    rw [List.card_toFinset]
  refine ⟨?_, ?_, ?_⟩
  · intro items raw h
    unfold videoIdsOf
    rw [h]
    exact ⟨rfl, key raw⟩
  · intro videos raw h
    unfold channelIdsOf
    rw [h]
    exact ⟨rfl, key raw⟩
  · intro o s r h
    unfold discover_videos at h
    split at h
    · exact Except.noConfusion h
    split at h
    · exact Except.noConfusion h
    next ids hids =>
      cases h
      unfold videoIdsOf at hids
      split at hids
      · exact Except.noConfusion hids
      next raw hraw =>
        cases hids
        exact List.nodup_dedup raw

/-- C5 (witness): dedup of a concrete extraction with a repeated id. -/
theorem c5_witness :
    videoIdsOf c5items = Except.ok (["v1", "v1", "v2"].dedup) ∧
      (["v1", "v1", "v2"] : List String).dedup.Nodup ∧
      (["v1", "v1", "v2"] : List String).dedup.length =
        (["v1", "v1", "v2"] : List String).toFinset.card :=
  c5_dedup.1 c5items ["v1", "v1", "v2"] rfl

/-- C6: for every injected clock value, the `publishedAfter` argument that
`discover_videos` passes to the search call is the ISO-8601 UTC rendering of
the datetime thirty days before the clock, and that datetime lies exactly
`30 * 86400` seconds before the clock — equality at second precision
(provided the clock's ordinal leaves room for the subtraction, which is also
what Python's `date.fromordinal` requires). -/
theorem c6_published_after (o : Oracles) (s : AgentState) (args : SearchArgs)
    (hargs : searchArgsOf o s = Except.ok args)
    (hord : 31 ≤ o.now.toordinal) :
    args.publishedAfter = (pySubDays o.now 30).isoformatT ++ "Z" ∧
      (pySubDays o.now 30).toSeconds + 30 * 86400 = o.now.toSeconds := by
  obtain ⟨niche, fmt, hn, hf, rfl⟩ := searchArgsOf_ok o s args hargs
  exact ⟨rfl, toSeconds_pySubDays o.now 30 (by omega)⟩

/-- C6 (witness): the time-window property at the concrete mock clock
2026-10-12 07:30:05 UTC. -/
theorem c6_witness :
    mockSearchArgs.publishedAfter = (pySubDays mockOracles.now 30).isoformatT ++ "Z" ∧
      (pySubDays mockOracles.now 30).toSeconds + 30 * 86400 = mockOracles.now.toSeconds :=
  c6_published_after mockOracles mockIntentState mockSearchArgs rfl (by decide)

/-- C7: write-once discipline of the pipeline state: each stage leaves every
field other than its own output field untouched — stage 1 writes only
`intent`, stage 2 only `video_ids`, stage 3 only `videos`, stage 4 only
`channels`, stage 5 only `final_results`; in particular `query` and `intent`
are unchanged by stages 2 through 5. -/
theorem c7_write_once :
    (∀ (o : Oracles) (s : AgentState) (r : AgentState × List Call),
        parse_intent o s = Except.ok r →
          r.1.query = s.query ∧ r.1.video_ids = s.video_ids ∧ r.1.videos = s.videos ∧
          r.1.channels = s.channels ∧ r.1.final_results = s.final_results) ∧
    (∀ (o : Oracles) (s : AgentState) (r : AgentState × List Call),
        discover_videos o s = Except.ok r →
          r.1.query = s.query ∧ r.1.intent = s.intent ∧ r.1.videos = s.videos ∧
          r.1.channels = s.channels ∧ r.1.final_results = s.final_results) ∧
    (∀ (o : Oracles) (s : AgentState) (r : AgentState × List Call),
        fetch_video_stats o s = Except.ok r →
          r.1.query = s.query ∧ r.1.intent = s.intent ∧ r.1.video_ids = s.video_ids ∧
          r.1.channels = s.channels ∧ r.1.final_results = s.final_results) ∧
    (∀ (o : Oracles) (s : AgentState) (r : AgentState × List Call),
        fetch_channels o s = Except.ok r →
          r.1.query = s.query ∧ r.1.intent = s.intent ∧ r.1.video_ids = s.video_ids ∧
          r.1.videos = s.videos ∧ r.1.final_results = s.final_results) ∧
    (∀ (o : Oracles) (s : AgentState) (r : AgentState × List Call),
        evaluate o s = Except.ok r →
          r.1.query = s.query ∧ r.1.intent = s.intent ∧ r.1.video_ids = s.video_ids ∧
          r.1.videos = s.videos ∧ r.1.channels = s.channels) := by
  refine ⟨?_, ?_, ?_, ?_, ?_⟩ <;> intro o s r h
  · unfold parse_intent at h
    dsimp only at h
    split at h
    · cases h; exact ⟨rfl, rfl, rfl, rfl, rfl⟩
    · exact Except.noConfusion h
  · unfold discover_videos at h
    split at h
    · exact Except.noConfusion h
    split at h
    · exact Except.noConfusion h
    cases h; exact ⟨rfl, rfl, rfl, rfl, rfl⟩
  · unfold fetch_video_stats at h
    cases h; exact ⟨rfl, rfl, rfl, rfl, rfl⟩
  · unfold fetch_channels at h
    split at h
    · exact Except.noConfusion h
    cases h; exact ⟨rfl, rfl, rfl, rfl, rfl⟩
  · unfold evaluate at h
    split at h
    · exact Except.noConfusion h
    dsimp only at h
    split at h
    · cases h; exact ⟨rfl, rfl, rfl, rfl, rfl⟩
    · exact Except.noConfusion h

/-- C7 (witness): the frame condition of the extractor stage at a concrete
run. -/
theorem c7_witness :
    c7run.1.query = ({ query := "q" } : AgentState).query ∧
      c7run.1.video_ids = ({ query := "q" } : AgentState).video_ids ∧
      c7run.1.videos = ({ query := "q" } : AgentState).videos ∧
      c7run.1.channels = ({ query := "q" } : AgentState).channels ∧
      c7run.1.final_results = ({ query := "q" } : AgentState).final_results :=
  c7_write_once.1 mockOracles { query := "q" } c7run rfl

/-- C8: determinism of the pipeline as a two-run property: two invocations of
the compiled agent on the same query under the same injected collaborators
return the same result — in particular byte-identical `final_results`. -/
theorem c8_deterministic (o : Oracles) (q : String) (r1 r2 : AgentState × List Call)
    (h1 : agentInvoke o { query := q } = Except.ok r1)
    (h2 : agentInvoke o { query := q } = Except.ok r2) :
    r1.1.final_results = r2.1.final_results ∧ r1 = r2 := by
  rw [h1] at h2
  cases h2
  exact ⟨rfl, rfl⟩

/-- C8 (witness): two successful mock runs of the full pipeline agree. -/
theorem c8_witness :
    c8run.1.final_results = c8run.1.final_results ∧ c8run = c8run :=
  c8_deterministic mockOracles "q" c8run c8run rfl rfl

/-- C9: the compiled graph is extensionally the plain sequential composition
of the five stage functions in the fixed order `parse_intent`,
`discover_videos`, `fetch_video_stats`, `fetch_channels`, `evaluate`, each
run once, with no branching and no repetition: invoking the agent equals
running the five functions in that order from the same initial state. -/
theorem c9_graph_equals_sequence (o : Oracles) (s : AgentState) :
    agentInvoke o s = seqPipeline o s := by
  unfold agentInvoke seqPipeline ytGraph
  cases h1 : parse_intent o s with
  | error e => simp [runGraph, List.find?, h1]
  | ok r1 =>
    cases h2 : discover_videos o r1.1 with
    | error e => simp [runGraph, List.find?, h1, h2]
    | ok r2 =>
      cases h3 : fetch_video_stats o r2.1 with
      | error e => simp [runGraph, List.find?, h1, h2, h3]
      | ok r3 =>
        cases h4 : fetch_channels o r3.1 with
        | error e => simp [runGraph, List.find?, h1, h2, h3, h4]
        | ok r4 =>
          cases h5 : evaluate o r4.1 with
          | error e => simp [runGraph, List.find?, h1, h2, h3, h4, h5]
          | ok r5 => simp [runGraph, List.find?, h1, h2, h3, h4, h5]

/-- C10: the enrichment stages subscript nested record fields unguarded.
When every search item carries `id.videoId`, the video-id extraction cannot
fail, and when every video carries `snippet.channelId`, `fetch_channels`
cannot fail — the lookup-error branch is unreachable under the precondition.
On an input violating the precondition the stage raises the lookup error
instead of skipping the record: a single video without `snippet.channelId`
makes `fetch_channels` fail with `KeyError "channelId"`. -/
theorem c10_unguarded_extraction :
    (∀ items : List SearchItem, (∀ it ∈ items, it.id.videoId ≠ none) →
        isOkE (videoIdsOf items) = true) ∧
    (∀ (o : Oracles) (s : AgentState), (∀ v ∈ s.videos, v.snippet.channelId ≠ none) →
        isOkE (fetch_channels o s) = true) ∧
    fetch_channels mockOracles { query := "q", videos := [⟨⟨none⟩⟩] } =
      Except.error (Err.keyError "channelId") := by
  refine ⟨?_, ?_, rfl⟩
  · intro items hall
    have hfa : ∀ a ∈ items, isOkE (getVideoId a) = true := by
      intro a ha
      have hne := hall a ha
      unfold getVideoId
      cases hva : a.id.videoId with
      | none => exact absurd hva hne
      | some v => rfl
    have h := extractAll_ok getVideoId items hfa
    unfold videoIdsOf
    cases he : extractAll getVideoId items with
    | error e => rw [he] at h; simp [isOkE] at h
    | ok raw => rfl
  · intro o s hall
    have hfa : ∀ v ∈ s.videos, isOkE (getChannelId v) = true := by
      intro v hv
      have hne := hall v hv
      unfold getChannelId
      cases hvc : v.snippet.channelId with
      | none => exact absurd hvc hne
      | some c => rfl
    have h := extractAll_ok getChannelId s.videos hfa
    unfold fetch_channels channelIdsOf
    cases he : extractAll getChannelId s.videos with
    | error e => rw [he] at h; simp [isOkE] at h
    | ok raw => rfl

/-- C10 (witness): the no-failure part at a concrete state whose single
video carries its `snippet.channelId`. -/
theorem c10_witness :
    isOkE (fetch_channels mockOracles { query := "q", videos := [⟨⟨some "c9"⟩⟩] }) = true :=
  c10_unguarded_extraction.2.1 mockOracles { query := "q", videos := [⟨⟨some "c9"⟩⟩] }
    (by decide)
